import Mathlib

/-!
Shallow embedding of the URL → QR-code generator widget
(`src/components/QRCodeGenerator.tsx`).

The component is single-threaded UI glue around asynchronous browser I/O.
The browser environment (URL parsing, image loading with timeouts, canvas
PNG export, the external QR-encoding library, the clock) is modelled as an
explicit `Env` record of oracles; every async load that can fail or time
out is an `Option`-returning oracle.  The component's observable state is
the `AppState` record; each handler becomes a function `Env → AppState →
… → AppState`.  Timeouts (3 s favicon probe, 10 s QR decode, 8 s logo
decode) are absorbed into the corresponding oracle returning `none`/`false`.
-/

namespace QRGen

/-- An entry of the recent-URLs history (`interface RecentUrl`). -/
structure RecentUrl where
  url : String
  timestamp : Nat
deriving DecidableEq, Repr

/-- The relevant pieces of a successfully parsed `new URL(...)` object. -/
structure URLObj where
  protocol : String
  hostname : String
deriving DecidableEq, Repr

/-- A decoded in-memory bitmap (`HTMLImageElement` after `onload`):
natural dimensions plus an abstract pixel-content identifier. -/
structure Img where
  width : Nat
  height : Nat
  pix : Nat
deriving DecidableEq, Repr

/-- A canvas 2D drawing operation issued by `createQRWithLogo`.
Coordinates are exact rationals (JS numbers on these inputs stay exact). -/
inductive DrawOp where
  | drawImage (img : Img) (x y : Rat)
  | fillCircle (cx cy r : Rat) (color : String)
  | strokeCircle (cx cy r lineWidth : Rat) (color : String)
  | clippedDrawImage (img : Img) (x y w h : Rat) (ccx ccy cr : Rat)
deriving DecidableEq, Repr

/-- A canvas: its dimensions and the ordered list of draw operations. -/
structure Canvas where
  width : Nat
  height : Nat
  ops : List DrawOp
deriving DecidableEq, Repr

/-- The browser/runtime environment the component runs against. -/
structure Env where
  /-- `new URL(s)`: `some` with protocol/hostname if it parses, else throws (`none`). -/
  parse : String → Option URLObj
  /-- Favicon probe oracle: does loading this URL as an `Image` succeed
  within the 3-second test timeout (`testImg.onload` fires first)? -/
  loads : String → Bool
  /-- `QRCode.toDataURL(url, {width: parseInt(size), …})`: the external QR
  library; `none` models the library throwing. -/
  qrEncode : String → String → Option String
  /-- `document`/`document.createElement` usable. -/
  canvasSupported : Bool
  /-- `canvas.getContext('2d')` returns a context. -/
  ctxAvailable : Bool
  /-- Decoding a source string as an image inside `createQRWithLogo`
  (argument 2 = whether `crossOrigin='anonymous'` was set); `none` models
  `onerror` or the load timeout (10 s for the QR image, 8 s for the logo). -/
  decode : String → Bool → Option Img
  /-- `canvas.toDataURL('image/png')`: PNG export of the canvas contents. -/
  encodePNG : Canvas → String
  /-- `Date.now()` at the moment a history entry is created. -/
  now : Nat

/-- The component's observable state (the `useState` fields plus the
`localStorage` record and the stream of toast notifications).
`storage` models the `qr-recent-urls` key at the entry-list level (JSON
serialization round-trips); `toasts` records the titles of toasts raised,
in order. -/
structure AppState where
  url : String
  qrCodeDataUrl : String
  isGenerating : Bool
  qrSize : String
  recentUrls : List RecentUrl
  logoEnabled : Bool
  /-- whether `logoFile` holds a `File` (truthy). -/
  logoFile : Bool
  logoPreview : String
  autoDetectLogo : Bool
  detectedFavicon : String
  isDetectingLogo : Bool
  storage : Option (List RecentUrl)
  toasts : List String
deriving Repr

/-- `isValidUrl`: `new URL(string)` inside try/catch. -/
def isValidUrl (env : Env) (s : String) : Bool :=
  (env.parse s).isSome

/-- JS `String.prototype.trim()`: strip leading and trailing whitespace
(modelled structurally on the character list so it evaluates). -/
def jsTrim (s : String) : String :=
  ⟨((s.data.dropWhile Char.isWhitespace).reverse.dropWhile Char.isWhitespace).reverse⟩

/-- JS `String.prototype.startsWith(p)` (modelled structurally on the
character list so it evaluates). -/
def jsStartsWith (s p : String) : Bool :=
  p.data.isPrefixOf s.data

/-- The ordered favicon candidate list built by `detectFavicon`
(`faviconSources`), in the source's order: Google's service at size 64,
DuckDuckGo's service, Google's service at size 32, then the three direct
paths under the target's origin. -/
def faviconSources (u : URLObj) : List String :=
  ["https://www.google.com/s2/favicons?domain=" ++ u.hostname ++ "&sz=64",
   "https://icons.duckduckgo.com/ip3/" ++ u.hostname ++ ".ico",
   "https://www.google.com/s2/favicons?domain=" ++ u.hostname ++ "&sz=32",
   u.protocol ++ "//" ++ u.hostname ++ "/favicon.ico",
   u.protocol ++ "//" ++ u.hostname ++ "/favicon.png",
   u.protocol ++ "//" ++ u.hostname ++ "/apple-touch-icon.png"]

/-- The fallback favicon URL used when every candidate fails
(Google's service at size 64 — the first entry of `faviconSources`). -/
def fallbackFavicon (u : URLObj) : String :=
  "https://www.google.com/s2/favicons?domain=" ++ u.hostname ++ "&sz=64"

/-- The sequential probe loop of `detectFavicon`: test each candidate in
order, stop at the first that loads.  Returns the first success (if any)
together with the list of candidates actually probed, in probe order. -/
def probeCandidates (loads : String → Bool) : List String → Option String × List String
  | [] => (none, [])
  | c :: rest =>
    if loads c then (some c, [c])
    else
      let r := probeCandidates loads rest
      (r.1, c :: r.2)

/-- Outcome of one `detectFavicon` call: the returned value, the candidates
probed (in order), and the value written to the `detectedFavicon` state
field (`none` = field left untouched). -/
structure FaviconOutcome where
  result : Option String
  probed : List String
  detected : Option String
deriving DecidableEq, Repr

/-- `detectFavicon(urlString)`: reject invalid URLs without probing;
otherwise probe `faviconSources` sequentially (3-second timeout each,
via `env.loads`) and return the first success, falling back to Google's
size-64 service URL when every candidate fails. -/
def detectFavicon (env : Env) (urlString : String) : FaviconOutcome :=
  if isValidUrl env urlString then
    match env.parse urlString with
    | none => { result := none, probed := [], detected := none }
    | some urlObj =>
      let r := probeCandidates env.loads (faviconSources urlObj)
      match r.1 with
      | some f => { result := some f, probed := r.2, detected := some f }
      | none =>
        { result := some (fallbackFavicon urlObj), probed := r.2,
          detected := some (fallbackFavicon urlObj) }
  else { result := none, probed := [], detected := none }

/-- The canvas after drawing only the base QR image (logo step skipped or
failed): sized to the QR image's natural dimensions, QR drawn at (0,0). -/
def qrOnlyCanvas (qrImage : Img) : Canvas :=
  { width := qrImage.width, height := qrImage.height,
    ops := [DrawOp.drawImage qrImage 0 0] }

/-- The canvas after the full logo composite: QR drawn, white background
disc of radius logoSize/2 + 8, 2-unit `#e5e7eb` stroke around it, then the
logo drawn scaled to `logoSize × logoSize`, clipped to the circle of
radius logoSize/2, all centered; logoSize = 25% of the shorter dimension. -/
def withLogoCanvas (qrImage logoImage : Img) : Canvas :=
  let logoSize : Rat := (min qrImage.width qrImage.height : Nat) * (1/4 : Rat)
  let centerX : Rat := (qrImage.width : Rat) / 2
  let centerY : Rat := (qrImage.height : Rat) / 2
  let logoX := centerX - logoSize / 2
  let logoY := centerY - logoSize / 2
  let backgroundRadius := logoSize / 2 + 8
  { width := qrImage.width, height := qrImage.height,
    ops := [DrawOp.drawImage qrImage 0 0,
            DrawOp.fillCircle centerX centerY backgroundRadius "white",
            DrawOp.strokeCircle centerX centerY backgroundRadius 2 "#e5e7eb",
            DrawOp.clippedDrawImage logoImage logoX logoY logoSize logoSize
              centerX centerY (logoSize / 2)] }

/-- `createQRWithLogo(qrDataUrl, logoUrl)`.  Outer try/catch: canvas or
base-QR failures return the input unchanged.  Inner try/catch: a logo
decode failure is swallowed and the QR-only canvas is exported.
`crossOrigin='anonymous'` is set exactly when the source is not a data URL. -/
def createQRWithLogo (env : Env) (qrDataUrl logoUrl : String) : String :=
  if env.canvasSupported then
    if env.ctxAvailable then
      match env.decode qrDataUrl (!jsStartsWith qrDataUrl "data:") with
      | none => qrDataUrl
      | some qrImage =>
        match env.decode logoUrl (!jsStartsWith logoUrl "data:") with
        | none => env.encodePNG (qrOnlyCanvas qrImage)
        | some logoImage => env.encodePNG (withLogoCanvas qrImage logoImage)
    else qrDataUrl
  else qrDataUrl

/-- `addToRecentUrls(newUrl)`: prepend `{url, timestamp: Date.now()}`,
filter out any prior entry with the same URL, keep the first 5, write the
result to state and to `localStorage`. -/
def addToRecentUrls (now : Nat) (s : AppState) (newUrl : String) : AppState :=
  let updated :=
    ({ url := newUrl, timestamp := now } ::
      s.recentUrls.filter (fun item => item.url != newUrl)).take 5
  { s with recentUrls := updated, storage := some updated }

/-- `clearRecentUrls()`: empty the list, remove the persisted record,
toast "History Cleared". -/
def clearRecentUrls (s : AppState) : AppState :=
  { s with recentUrls := [], storage := none,
           toasts := s.toasts ++ ["History Cleared"] }

/-- The mount-time `useEffect`: read `qr-recent-urls` from storage and, if
present, set the list to its parsed contents (parse failure leaves the
list unchanged; storage is modelled at the entry-list level, so parsing
always succeeds here). -/
def loadRecentUrls (s : AppState) : AppState :=
  match s.storage with
  | none => s
  | some l => { s with recentUrls := l }

/-- Tail of `generateQRCode` after a successful generation: set the
displayed image, record the URL into history only when the call did not
carry a truthy `inputUrl`, toast "QR Code Generated!", clear the
generating flag (the `finally`). -/
def finishGen (env : Env) (s : AppState) (inputTruthy : Bool)
    (targetUrl finalQr : String) : AppState :=
  let s1 := { s with qrCodeDataUrl := finalQr }
  let s2 := if inputTruthy then s1 else addToRecentUrls env.now s1 targetUrl
  { s2 with toasts := s2.toasts ++ ["QR Code Generated!"], isGenerating := false }

/-- The logo phase of `generateQRCode` once the base QR data URL exists:
prefer an uploaded logo, else auto-detect a favicon, else no logo; when a
logo URL is available run the compositor and compare its output with the
base QR byte-for-byte to pick the toast. -/
def generateSuccess (env : Env) (s : AppState) (inputTruthy : Bool)
    (targetUrl qrDataUrl : String) : AppState :=
  if s.logoEnabled then
    let p : String × AppState :=
      if s.logoFile && s.logoPreview != "" then (s.logoPreview, s)
      else if s.autoDetectLogo then
        let fav := detectFavicon env targetUrl
        let s' := match fav.detected with
          | some d => { s with detectedFavicon := d, isDetectingLogo := false }
          | none => s
        match fav.result with
        | some f => (f, s')
        | none => ("", s')
      else ("", s)
    if p.1 != "" then
      let finalQrDataUrl := createQRWithLogo env qrDataUrl p.1
      let s2 :=
        if finalQrDataUrl = qrDataUrl then
          { p.2 with toasts := p.2.toasts ++ ["Logo Integration Issue"] }
        else
          { p.2 with toasts := p.2.toasts ++ ["Success!"] }
      finishGen env s2 inputTruthy targetUrl finalQrDataUrl
    else
      finishGen env
        { p.2 with toasts := p.2.toasts ++ ["No Logo Found"] }
        inputTruthy targetUrl qrDataUrl
  else
    finishGen env s inputTruthy targetUrl qrDataUrl

/-- The target URL of a `generateQRCode(inputUrl?)` call:
`inputUrl || url` (JS `||`: an empty/absent `inputUrl` falls back to the
state's `url` field). -/
def targetUrlOf (inputUrl : Option String) (stateUrl : String) : String :=
  match inputUrl with
  | some u => if u = "" then stateUrl else u
  | none => stateUrl

/-- Whether `inputUrl` is truthy (`!inputUrl` is false): present and
non-empty.  Controls skipping the history write. -/
def inputTruthy (inputUrl : Option String) : Bool :=
  match inputUrl with
  | some u => u != ""
  | none => false

/-- `generateQRCode(inputUrl?)`: validate (empty/whitespace → "URL
Required", unparseable → "Invalid URL", both without touching image or
history), then encode the base QR via the external library ("Generation
Failed" on throw), then run the logo phase and finish. -/
def generateQRCode (env : Env) (s : AppState) (inputUrl : Option String) : AppState :=
  let targetUrl := targetUrlOf inputUrl s.url
  if jsTrim targetUrl = "" then
    { s with toasts := s.toasts ++ ["URL Required"] }
  else if !isValidUrl env targetUrl then
    { s with toasts := s.toasts ++ ["Invalid URL"] }
  else
    match env.qrEncode targetUrl s.qrSize with
    | none =>
      { s with toasts := s.toasts ++ ["Generation Failed"], isGenerating := false }
    | some qrDataUrl => generateSuccess env s (inputTruthy inputUrl) targetUrl qrDataUrl

/-- The logo URL `generateQRCode` ends up handing to the compositor
(`''` when none is available): the uploaded preview when a file is set,
else the auto-detected favicon, else nothing. -/
def resolvedLogoUrl (env : Env) (s : AppState) (targetUrl : String) : String :=
  if s.logoFile && s.logoPreview != "" then s.logoPreview
  else if s.autoDetectLogo then
    match (detectFavicon env targetUrl).result with
    | some f => f
    | none => ""
  else ""

/-- A history operation, as performed by the component: a successful
direct-submission generation adds a URL, the trash button clears, the
mount effect loads from storage. -/
inductive HistOp where
  | add (url : String)
  | clear
  | load
deriving DecidableEq, Repr

/-- Apply one history operation to the component state at clock time `t`
(the `Date.now()` an `add` would observe), via the source operations. -/
def applyHistOp (t : Nat) (s : AppState) : HistOp → AppState
  | HistOp.add u => addToRecentUrls t s u
  | HistOp.clear => clearRecentUrls s
  | HistOp.load => loadRecentUrls s

/-- Run a sequence of history operations; the clock advances strictly
between operations (`Date.now()` is nondecreasing, taken strictly here
one tick per operation). -/
def runHistOps : AppState → Nat → List HistOp → AppState
  | s, _, [] => s
  | s, t, op :: ops => runHistOps (applyHistOp t s op) (t + 1) ops

/-- Pairwise-distinct URLs. -/
def urlsDistinct (l : List RecentUrl) : Prop :=
  l.Pairwise (fun a b => a.url ≠ b.url)

/-- Ordered newest first: timestamps are nonincreasing along the list. -/
def newestFirst (l : List RecentUrl) : Prop :=
  l.Pairwise (fun a b => b.timestamp ≤ a.timestamp)

/-- Every timestamp in the list is below the clock value `t`. -/
def stampsBelow (l : List RecentUrl) (t : Nat) : Prop :=
  ∀ e ∈ l, e.timestamp < t

/-- The history invariant for one entry list at clock `t`. -/
def listInv (l : List RecentUrl) (t : Nat) : Prop :=
  l.length ≤ 5 ∧ urlsDistinct l ∧ newestFirst l ∧ stampsBelow l t

/-- The history invariant of the component state at clock `t`: it holds
for the displayed list and for whatever the storage key holds. -/
def histInv (s : AppState) (t : Nat) : Prop :=
  listInv s.recentUrls t ∧ ∀ l, s.storage = some l → listInv l t

/-- The favicon candidate order as the specification words it (stated for
comparison with the source's `faviconSources`): the favicon-by-domain
service at its two resolutions first, then the alternate service, then
the three direct paths. -/
def claimedFaviconOrder (u : URLObj) : List String :=
  ["https://www.google.com/s2/favicons?domain=" ++ u.hostname ++ "&sz=64",
   "https://www.google.com/s2/favicons?domain=" ++ u.hostname ++ "&sz=32",
   "https://icons.duckduckgo.com/ip3/" ++ u.hostname ++ ".ico",
   u.protocol ++ "//" ++ u.hostname ++ "/favicon.ico",
   u.protocol ++ "//" ++ u.hostname ++ "/favicon.png",
   u.protocol ++ "//" ++ u.hostname ++ "/apple-touch-icon.png"]

/-- A sample parsed URL object for concrete runs. -/
def exObj : URLObj := { protocol := "https:", hostname := "example.com" }

/-- Sample base QR data URL produced by the QR library. -/
def exQR : String := "data:image/png;base64,QR"

/-- Sample PNG export the canvas produces. -/
def exReenc : String := "data:image/png;base64,REENC"

/-- Sample decoded bitmap. -/
def exImg : Img := { width := 256, height := 256, pix := 1 }

/-- A sample environment: only `https://example.com` parses, every favicon
probe fails, the QR library succeeds on it, the canvas works, only the
base QR data URL decodes, and PNG export yields a fresh byte string. -/
def exEnv : Env :=
  { parse := fun s => if s = "https://example.com" then some exObj else none
  , loads := fun _ => false
  , qrEncode := fun u _ => if u = "https://example.com" then some exQR else none
  , canvasSupported := true
  , ctxAvailable := true
  , decode := fun s _ => if s = exQR then some exImg else none
  , encodePNG := fun _ => exReenc
  , now := 42 }

/-- A sample component state pointed at `https://example.com` with the
logo feature off and an empty history. -/
def exState : AppState :=
  { url := "https://example.com", qrCodeDataUrl := "", isGenerating := false
  , qrSize := "256", recentUrls := [], logoEnabled := false, logoFile := false
  , logoPreview := "", autoDetectLogo := true, detectedFavicon := ""
  , isDetectingLogo := false, storage := none, toasts := [] }

/-- A variant of the sample environment where exactly the DuckDuckGo
candidate loads. -/
def exEnvDuck : Env :=
  { exEnv with
    loads := fun c => c == "https://icons.duckduckgo.com/ip3/example.com.ico" }

/-! ### Helper lemmas about the probe loop and the generation pipeline -/

theorem probeCandidates_fst (loads : String → Bool) (l : List String) :
    (probeCandidates loads l).1 = l.find? loads := by
  induction l with
  | nil => rfl
  | cons c rest ih =>
    by_cases h : loads c <;> simp [probeCandidates, List.find?_cons, h, ih]

theorem probeCandidates_snd (loads : String → Bool) (l : List String) :
    (probeCandidates loads l).2 =
      l.takeWhile (fun c => !loads c) ++ (l.find? loads).toList := by
  induction l with
  | nil => rfl
  | cons c rest ih =>
    by_cases h : loads c <;>
      simp [probeCandidates, List.takeWhile_cons, List.find?_cons, h, ih]

theorem detectFavicon_parse_none {env : Env} {s : String}
    (h : env.parse s = none) :
    detectFavicon env s = { result := none, probed := [], detected := none } := by
  unfold detectFavicon isValidUrl
  simp [h]

theorem detectFavicon_parse_some {env : Env} {s : String} {obj : URLObj}
    (h : env.parse s = some obj) :
    detectFavicon env s =
      { result := some (((faviconSources obj).find? env.loads).getD (fallbackFavicon obj))
      , probed := (faviconSources obj).takeWhile (fun c => !env.loads c)
          ++ ((faviconSources obj).find? env.loads).toList
      , detected :=
          some (((faviconSources obj).find? env.loads).getD (fallbackFavicon obj)) } := by
  unfold detectFavicon isValidUrl
  cases hf : (faviconSources obj).find? env.loads with
  | none => simp [h, probeCandidates_fst, probeCandidates_snd, hf]
  | some c => simp [h, probeCandidates_fst, probeCandidates_snd, hf]

theorem finishGen_qrCodeDataUrl (env : Env) (s : AppState) (it : Bool)
    (t fq : String) : (finishGen env s it t fq).qrCodeDataUrl = fq := by
  unfold finishGen addToRecentUrls
  cases it <;> simp

theorem finishGen_detectedFavicon (env : Env) (s : AppState) (it : Bool)
    (t fq : String) : (finishGen env s it t fq).detectedFavicon = s.detectedFavicon := by
  unfold finishGen addToRecentUrls
  cases it <;> simp

theorem finishGen_recentUrls_true (env : Env) (s : AppState) (t fq : String) :
    (finishGen env s true t fq).recentUrls = s.recentUrls := by
  unfold finishGen
  simp

theorem finishGen_storage_true (env : Env) (s : AppState) (t fq : String) :
    (finishGen env s true t fq).storage = s.storage := by
  unfold finishGen
  simp

theorem finishGen_recentUrls_false (env : Env) (s : AppState) (t fq : String) :
    (finishGen env s false t fq).recentUrls =
      ({ url := t, timestamp := env.now } ::
        s.recentUrls.filter (fun e => e.url != t)).take 5 := by
  unfold finishGen addToRecentUrls
  simp

theorem generateQRCode_valid_eq (env : Env) (s : AppState)
    (inputUrl : Option String) (q : String)
    (htrim : jsTrim (targetUrlOf inputUrl s.url) ≠ "")
    (hvalid : (env.parse (targetUrlOf inputUrl s.url)).isSome = true)
    (henc : env.qrEncode (targetUrlOf inputUrl s.url) s.qrSize = some q) :
    generateQRCode env s inputUrl =
      generateSuccess env s (inputTruthy inputUrl) (targetUrlOf inputUrl s.url) q := by
  unfold generateQRCode isValidUrl
  simp [htrim, hvalid, henc]

/-! ### C8 -/

/-- C8: for every input QR data URL, if canvas creation, context
acquisition, or the base QR image decode fails (including its timeout),
`createQRWithLogo` returns the original un-composited QR data URL
unchanged (and, being a total function, never throws to its caller). -/
theorem C8_compositor_fail_soft (env : Env) (qr logo : String)
    (h : env.canvasSupported = false ∨ env.ctxAvailable = false ∨
         env.decode qr (!jsStartsWith qr "data:") = none) :
    createQRWithLogo env qr logo = qr := by
  unfold createQRWithLogo
  rcases h with h | h | h
  · simp [h]
  · simp [h]
  · by_cases h1 : env.canvasSupported <;> by_cases h2 : env.ctxAvailable <;>
      simp [h1, h2, h]

/-- Witness for C8 at a concrete environment with canvas unsupported. -/
theorem C8_witness :
    createQRWithLogo { exEnv with canvasSupported := false } "qr" "logo" = "qr" :=
  C8_compositor_fail_soft { exEnv with canvasSupported := false } "qr" "logo"
    (Or.inl rfl)

/-! ### C9 -/

/-- C9: `detectFavicon` returns null immediately, probing no candidate,
exactly when its input fails URL parsing; on every parseable input it
returns a non-null URL. -/
theorem C9_null_iff_invalid (env : Env) (s : String) :
    (env.parse s = none →
      detectFavicon env s = { result := none, probed := [], detected := none }) ∧
    ((env.parse s).isSome = true → (detectFavicon env s).result.isSome = true) := by
  constructor
  · exact fun h => detectFavicon_parse_none h
  · intro h
    cases hp : env.parse s with
    | none => rw [hp] at h; simp at h
    | some obj => rw [detectFavicon_parse_some hp]; simp

/-- Witness for C9: a non-URL string yields null with no probing, a
parseable URL yields a non-null result. -/
theorem C9_witness :
    detectFavicon exEnv "not-a-url" = { result := none, probed := [], detected := none } ∧
    (detectFavicon exEnv "https://example.com").result.isSome = true :=
  ⟨(C9_null_iff_invalid exEnv "not-a-url").1 rfl,
   (C9_null_iff_invalid exEnv "https://example.com").2 rfl⟩

/-! ### C10 -/

/-- C10: every prior entry retained by `addToRecentUrls` is kept verbatim
(url and timestamp unchanged) in its original relative order — the
retained tail is a sublist of the prior list — and the tail is exactly
the prior entries with a different URL, truncated at the cap. -/
theorem C10_add_frame (t : Nat) (s : AppState) (u : String) :
    List.Sublist ((addToRecentUrls t s u).recentUrls.tail) s.recentUrls ∧
    (addToRecentUrls t s u).recentUrls.tail
      = (s.recentUrls.filter (fun e => e.url != u)).take 4 ∧
    ∀ e ∈ (addToRecentUrls t s u).recentUrls.tail, e ∈ s.recentUrls ∧ e.url ≠ u := by
  have htail : (addToRecentUrls t s u).recentUrls.tail
      = (s.recentUrls.filter (fun e => e.url != u)).take 4 := by
    unfold addToRecentUrls
    simp [List.take_succ_cons]
  refine ⟨?_, htail, ?_⟩
  · rw [htail]
    exact (List.take_sublist _ _).trans (List.filter_sublist _)
  · intro e he
    rw [htail] at he
    have he' := List.mem_of_mem_take he
    rw [List.mem_filter] at he'
    exact ⟨he'.1, by simpa using he'.2⟩

/-- Witness for C10 at a concrete two-entry history. -/
theorem C10_witness :
    List.Sublist ((addToRecentUrls 7
        { exState with recentUrls := [{ url := "https://b.com", timestamp := 2 },
                                      { url := "https://a.com", timestamp := 1 }] }
        "https://a.com").recentUrls.tail)
      ({ exState with recentUrls := [{ url := "https://b.com", timestamp := 2 },
                                     { url := "https://a.com", timestamp := 1 }] } :
        AppState).recentUrls ∧
    (addToRecentUrls 7
        { exState with recentUrls := [{ url := "https://b.com", timestamp := 2 },
                                      { url := "https://a.com", timestamp := 1 }] }
        "https://a.com").recentUrls.tail
      = (({ exState with recentUrls := [{ url := "https://b.com", timestamp := 2 },
                                        { url := "https://a.com", timestamp := 1 }] } :
          AppState).recentUrls.filter (fun e => e.url != "https://a.com")).take 4 ∧
    ∀ e ∈ (addToRecentUrls 7
        { exState with recentUrls := [{ url := "https://b.com", timestamp := 2 },
                                      { url := "https://a.com", timestamp := 1 }] }
        "https://a.com").recentUrls.tail,
      e ∈ ({ exState with recentUrls := [{ url := "https://b.com", timestamp := 2 },
                                         { url := "https://a.com", timestamp := 1 }] } :
          AppState).recentUrls ∧ e.url ≠ "https://a.com" :=
  C10_add_frame 7
    { exState with recentUrls := [{ url := "https://b.com", timestamp := 2 },
                                  { url := "https://a.com", timestamp := 1 }] }
    "https://a.com"

/-! ### C7 -/

/-- C7: re-adding a URL already present yields exactly one entry for it,
at the front, carrying the latest timestamp; the list stays within the
cap and is persisted as stored. -/
theorem C7_readd_moves_to_front (t : Nat) (s : AppState) (u : String)
    (hmem : ∃ e ∈ s.recentUrls, e.url = u)
    (hts : ∀ e ∈ s.recentUrls, e.timestamp ≤ t) :
    (addToRecentUrls t s u).recentUrls.head? = some { url := u, timestamp := t } ∧
    (addToRecentUrls t s u).recentUrls.filter (fun e => e.url == u)
      = [{ url := u, timestamp := t }] ∧
    (addToRecentUrls t s u).recentUrls.length ≤ 5 ∧
    (∀ e ∈ (addToRecentUrls t s u).recentUrls, e.timestamp ≤ t) ∧
    (addToRecentUrls t s u).storage = some (addToRecentUrls t s u).recentUrls := by
  have hrec : (addToRecentUrls t s u).recentUrls
      = { url := u, timestamp := t } ::
          (s.recentUrls.filter (fun e => e.url != u)).take 4 := by
    unfold addToRecentUrls
    simp [List.take_succ_cons]
  refine ⟨by rw [hrec]; rfl, ?_, ?_, ?_, by unfold addToRecentUrls; rfl⟩
  · rw [hrec, List.filter_cons]
    simp only [beq_self_eq_true, if_true]
    have hnil : ((s.recentUrls.filter (fun e => e.url != u)).take 4).filter
        (fun e => e.url == u) = [] := by
      rw [List.filter_eq_nil_iff]
      intro e he
      have he' := List.mem_of_mem_take he
      rw [List.mem_filter] at he'
      simpa using he'.2
    simp [hnil]
  · rw [hrec]
    have := List.length_take_le 4 (s.recentUrls.filter (fun e => e.url != u))
    simp only [List.length_cons]
    omega
  · intro e he
    rw [hrec] at he
    rcases List.mem_cons.mp he with h | h
    · subst h; exact le_refl t
    · exact hts e (List.mem_of_mem_filter (List.mem_of_mem_take h))

/-- Witness for C7 at a concrete two-entry history re-adding the older URL. -/
theorem C7_witness :
    (addToRecentUrls 10
        { exState with recentUrls := [{ url := "https://b.com", timestamp := 2 },
                                      { url := "https://a.com", timestamp := 1 }] }
        "https://a.com").recentUrls.head? = some { url := "https://a.com", timestamp := 10 } ∧
    (addToRecentUrls 10
        { exState with recentUrls := [{ url := "https://b.com", timestamp := 2 },
                                      { url := "https://a.com", timestamp := 1 }] }
        "https://a.com").recentUrls.filter (fun e => e.url == "https://a.com")
      = [{ url := "https://a.com", timestamp := 10 }] ∧
    (addToRecentUrls 10
        { exState with recentUrls := [{ url := "https://b.com", timestamp := 2 },
                                      { url := "https://a.com", timestamp := 1 }] }
        "https://a.com").recentUrls.length ≤ 5 ∧
    (∀ e ∈ (addToRecentUrls 10
        { exState with recentUrls := [{ url := "https://b.com", timestamp := 2 },
                                      { url := "https://a.com", timestamp := 1 }] }
        "https://a.com").recentUrls, e.timestamp ≤ 10) ∧
    (addToRecentUrls 10
        { exState with recentUrls := [{ url := "https://b.com", timestamp := 2 },
                                      { url := "https://a.com", timestamp := 1 }] }
        "https://a.com").storage = some (addToRecentUrls 10
        { exState with recentUrls := [{ url := "https://b.com", timestamp := 2 },
                                      { url := "https://a.com", timestamp := 1 }] }
        "https://a.com").recentUrls :=
  C7_readd_moves_to_front 10
    { exState with recentUrls := [{ url := "https://b.com", timestamp := 2 },
                                  { url := "https://a.com", timestamp := 1 }] }
    "https://a.com" (by decide) (by decide)

/-! ### C1 -/

/-- C1 counterexample: a concrete browser environment in which the base
QR decodes, the logo decode fails, and the canvas PNG export of the
QR-only canvas is not the input byte string — `createQRWithLogo` then
returns a data URL different from its input, refuting byte-identity. -/
theorem C1_counterexample :
    exEnv.decode exQR (!jsStartsWith exQR "data:") = some exImg ∧
    exEnv.decode "logo.png" (!jsStartsWith "logo.png" "data:") = none ∧
    createQRWithLogo exEnv exQR "logo.png" ≠ exQR := by
  refine ⟨rfl, rfl, ?_⟩
  decide

/-- C1 (amended): when the canvas works and the base QR decodes but the
logo decode fails or times out, `createQRWithLogo` does not fail and
returns the QR-only composite — the PNG export of the canvas holding
only the drawn QR image — which need not be byte-identical to the input
data URL. -/
theorem C1_logo_fail_qr_only_composite (env : Env) (qr logo : String) (img : Img)
    (hcanvas : env.canvasSupported = true) (hctx : env.ctxAvailable = true)
    (hqr : env.decode qr (!jsStartsWith qr "data:") = some img)
    (hlogo : env.decode logo (!jsStartsWith logo "data:") = none) :
    createQRWithLogo env qr logo = env.encodePNG (qrOnlyCanvas img) := by
  unfold createQRWithLogo
  simp [hcanvas, hctx, hqr, hlogo]

/-- Witness for C1's amended theorem at the concrete environment. -/
theorem C1_witness :
    createQRWithLogo exEnv exQR "logo.png" = exEnv.encodePNG (qrOnlyCanvas exImg) :=
  C1_logo_fail_qr_only_composite exEnv exQR "logo.png" exImg rfl rfl rfl rfl

/-! ### C2 -/

/-- C2: an empty/whitespace or unparseable target URL leaves the
displayed image, the history list and the persisted record unchanged and
surfaces a validation toast ("URL Required" or "Invalid URL"). -/
theorem C2_invalid_rejected (env : Env) (s : AppState) (inputUrl : Option String)
    (h : jsTrim (targetUrlOf inputUrl s.url) = "" ∨
         env.parse (targetUrlOf inputUrl s.url) = none) :
    (generateQRCode env s inputUrl).qrCodeDataUrl = s.qrCodeDataUrl ∧
    (generateQRCode env s inputUrl).recentUrls = s.recentUrls ∧
    (generateQRCode env s inputUrl).storage = s.storage ∧
    ((generateQRCode env s inputUrl).toasts = s.toasts ++ ["URL Required"] ∨
     (generateQRCode env s inputUrl).toasts = s.toasts ++ ["Invalid URL"]) := by
  unfold generateQRCode isValidUrl
  rcases h with h | h
  · simp [h]
  · by_cases ht : jsTrim (targetUrlOf inputUrl s.url) = ""
    · simp [ht]
    · simp [ht, h]

/-- Witness for C2: generating on `not-a-url` changes nothing but the
toast stream. -/
theorem C2_witness :
    (generateQRCode exEnv { exState with url := "not-a-url" } none).qrCodeDataUrl
      = ({ exState with url := "not-a-url" } : AppState).qrCodeDataUrl ∧
    (generateQRCode exEnv { exState with url := "not-a-url" } none).recentUrls
      = ({ exState with url := "not-a-url" } : AppState).recentUrls ∧
    (generateQRCode exEnv { exState with url := "not-a-url" } none).storage
      = ({ exState with url := "not-a-url" } : AppState).storage ∧
    ((generateQRCode exEnv { exState with url := "not-a-url" } none).toasts
      = ({ exState with url := "not-a-url" } : AppState).toasts ++ ["URL Required"] ∨
     (generateQRCode exEnv { exState with url := "not-a-url" } none).toasts
      = ({ exState with url := "not-a-url" } : AppState).toasts ++ ["Invalid URL"]) :=
  C2_invalid_rejected exEnv { exState with url := "not-a-url" } none (Or.inr rfl)

/-! ### More pipeline lemmas -/

theorem generateSuccess_qrCodeDataUrl (env : Env) (s : AppState) (it : Bool)
    (t q : String) :
    (generateSuccess env s it t q).qrCodeDataUrl =
      if s.logoEnabled then
        (if resolvedLogoUrl env s t != "" then
          createQRWithLogo env q (resolvedLogoUrl env s t) else q)
      else q := by
  unfold generateSuccess resolvedLogoUrl
  by_cases hen : s.logoEnabled
  · by_cases hfile : (s.logoFile && s.logoPreview != "") = true
    · have hand := hfile
      rw [Bool.and_eq_true] at hand
      have hne : s.logoPreview ≠ "" := by simpa using hand.2
      by_cases hc : createQRWithLogo env q s.logoPreview = q <;>
        simp [hen, hfile, hne, hc, finishGen_qrCodeDataUrl]
    · by_cases hauto : s.autoDetectLogo
      · cases hres : (detectFavicon env t).result with
        | some f =>
          cases hdet : (detectFavicon env t).detected <;>
            by_cases hf : (f != "") = true <;>
              by_cases hc : createQRWithLogo env q f = q <;>
                simp [hen, hfile, hauto, hres, hdet, hf, hc, finishGen_qrCodeDataUrl]
        | none =>
          cases hdet : (detectFavicon env t).detected <;>
            simp [hen, hfile, hauto, hres, hdet, finishGen_qrCodeDataUrl]
      · simp [hen, hfile, hauto, finishGen_qrCodeDataUrl]
  · simp [hen, finishGen_qrCodeDataUrl]

theorem generateSuccess_recentUrls_true (env : Env) (s : AppState) (t q : String) :
    (generateSuccess env s true t q).recentUrls = s.recentUrls := by
  unfold generateSuccess
  by_cases hen : s.logoEnabled
  · by_cases hfile : (s.logoFile && s.logoPreview != "") = true
    · have hand := hfile
      rw [Bool.and_eq_true] at hand
      have hne : s.logoPreview ≠ "" := by simpa using hand.2
      by_cases hc : createQRWithLogo env q s.logoPreview = q <;>
        simp [hen, hfile, hne, hc, finishGen_recentUrls_true]
    · by_cases hauto : s.autoDetectLogo
      · cases hres : (detectFavicon env t).result with
        | some f =>
          cases hdet : (detectFavicon env t).detected <;>
            by_cases hf : (f != "") = true <;>
              by_cases hc : createQRWithLogo env q f = q <;>
                simp [hen, hfile, hauto, hres, hdet, hf, hc, finishGen_recentUrls_true]
        | none =>
          cases hdet : (detectFavicon env t).detected <;>
            simp [hen, hfile, hauto, hres, hdet, finishGen_recentUrls_true]
      · simp [hen, hfile, hauto, finishGen_recentUrls_true]
  · simp [hen, finishGen_recentUrls_true]

theorem generateSuccess_storage_true (env : Env) (s : AppState) (t q : String) :
    (generateSuccess env s true t q).storage = s.storage := by
  unfold generateSuccess
  by_cases hen : s.logoEnabled
  · by_cases hfile : (s.logoFile && s.logoPreview != "") = true
    · have hand := hfile
      rw [Bool.and_eq_true] at hand
      have hne : s.logoPreview ≠ "" := by simpa using hand.2
      by_cases hc : createQRWithLogo env q s.logoPreview = q <;>
        simp [hen, hfile, hne, hc, finishGen_storage_true]
    · by_cases hauto : s.autoDetectLogo
      · cases hres : (detectFavicon env t).result with
        | some f =>
          cases hdet : (detectFavicon env t).detected <;>
            by_cases hf : (f != "") = true <;>
              by_cases hc : createQRWithLogo env q f = q <;>
                simp [hen, hfile, hauto, hres, hdet, hf, hc, finishGen_storage_true]
        | none =>
          cases hdet : (detectFavicon env t).detected <;>
            simp [hen, hfile, hauto, hres, hdet, finishGen_storage_true]
      · simp [hen, hfile, hauto, finishGen_storage_true]
  · simp [hen, finishGen_storage_true]

theorem generateSuccess_recentUrls_false (env : Env) (s : AppState) (t q : String) :
    (generateSuccess env s false t q).recentUrls =
      ({ url := t, timestamp := env.now } ::
        s.recentUrls.filter (fun e => e.url != t)).take 5 := by
  unfold generateSuccess
  by_cases hen : s.logoEnabled
  · by_cases hfile : (s.logoFile && s.logoPreview != "") = true
    · have hand := hfile
      rw [Bool.and_eq_true] at hand
      have hne : s.logoPreview ≠ "" := by simpa using hand.2
      by_cases hc : createQRWithLogo env q s.logoPreview = q <;>
        simp [hen, hfile, hne, hc, finishGen_recentUrls_false]
    · by_cases hauto : s.autoDetectLogo
      · cases hres : (detectFavicon env t).result with
        | some f =>
          cases hdet : (detectFavicon env t).detected <;>
            by_cases hf : (f != "") = true <;>
              by_cases hc : createQRWithLogo env q f = q <;>
                simp [hen, hfile, hauto, hres, hdet, hf, hc, finishGen_recentUrls_false]
        | none =>
          cases hdet : (detectFavicon env t).detected <;>
            simp [hen, hfile, hauto, hres, hdet, finishGen_recentUrls_false]
      · simp [hen, hfile, hauto, finishGen_recentUrls_false]
  · simp [hen, finishGen_recentUrls_false]

theorem generateSuccess_detectedFavicon_auto (env : Env) (s : AppState) (it : Bool)
    (t q d : String)
    (hen : s.logoEnabled = true)
    (hfile : (s.logoFile && s.logoPreview != "") = false)
    (hauto : s.autoDetectLogo = true)
    (hdet : (detectFavicon env t).detected = some d) :
    (generateSuccess env s it t q).detectedFavicon = d := by
  unfold generateSuccess
  cases hres : (detectFavicon env t).result with
  | some f =>
    by_cases hf : (f != "") = true <;>
      by_cases hc : createQRWithLogo env q f = q <;>
        simp [hen, hfile, hauto, hres, hdet, hf, hc, finishGen_detectedFavicon]
  | none => simp [hen, hfile, hauto, hres, hdet, finishGen_detectedFavicon]

theorem fallbackFavicon_ne_empty (u : URLObj) : fallbackFavicon u ≠ "" := by
  intro h
  have hlen : (fallbackFavicon u).length = 0 := by rw [h]; rfl
  rw [fallbackFavicon, String.length_append, String.length_append] at hlen
  have hne : "https://www.google.com/s2/favicons?domain=".length ≠ 0 := by decide
  omega

theorem probePrefix_isPrefixOf (p : String → Bool) (l : List String) :
    List.IsPrefix (l.takeWhile (fun c => !p c) ++ (l.find? p).toList) l := by
  induction l with
  | nil => simp
  | cons a l ih =>
    by_cases h : p a
    · refine ⟨l, ?_⟩
      simp [List.takeWhile_cons, List.find?_cons, h]
    · obtain ⟨t, ht⟩ := ih
      refine ⟨t, ?_⟩
      simp only [List.takeWhile_cons, List.find?_cons, h]
      simpa using congrArg (fun xs => a :: xs) ht

/-! ### C5 -/

/-- C5 counterexample: with every candidate failing on
`https://example.com`, the probe sequence is the source's candidate list,
whose second probe is the DuckDuckGo (alternate) service — the code
interleaves the alternate service between the two Google resolutions, so
the claimed order (both resolutions of the favicon-by-domain service
before the alternate service) does not hold. -/
theorem C5_counterexample :
    ((detectFavicon exEnv "https://example.com").probed)[1]?
      = some "https://icons.duckduckgo.com/ip3/example.com.ico" ∧
    (detectFavicon exEnv "https://example.com").probed = faviconSources exObj ∧
    faviconSources exObj ≠ claimedFaviconOrder exObj := by
  refine ⟨?_, ?_, ?_⟩ <;> decide

/-- C5 (amended): for every parseable URL, `detectFavicon` probes the
candidate list `faviconSources` strictly in the source's order — the
Google service at size 64, the DuckDuckGo service, the Google service at
size 32, then the three direct origin paths — each under the 3-second
probe oracle: the probed candidates are exactly the failing prefix
followed by the first loading candidate (a prefix of the candidate list,
so no later candidate is probed), and the returned URL is the first
loading candidate, or the fallback when none loads. -/
theorem C5_probe_order_first_success (env : Env) (s : String) (obj : URLObj)
    (hparse : env.parse s = some obj) :
    (detectFavicon env s).probed =
      (faviconSources obj).takeWhile (fun c => !env.loads c)
        ++ ((faviconSources obj).find? env.loads).toList ∧
    (detectFavicon env s).result =
      some (((faviconSources obj).find? env.loads).getD (fallbackFavicon obj)) ∧
    List.IsPrefix (detectFavicon env s).probed (faviconSources obj) := by
  rw [detectFavicon_parse_some hparse]
  exact ⟨rfl, rfl, probePrefix_isPrefixOf env.loads (faviconSources obj)⟩

/-- Witness for C5's amended theorem: only the DuckDuckGo candidate
loads; it is returned and probing stops there. -/
theorem C5_witness :
    (detectFavicon exEnvDuck "https://example.com").probed =
      (faviconSources exObj).takeWhile (fun c => !exEnvDuck.loads c)
        ++ ((faviconSources exObj).find? exEnvDuck.loads).toList ∧
    (detectFavicon exEnvDuck "https://example.com").result =
      some (((faviconSources exObj).find? exEnvDuck.loads).getD (fallbackFavicon exObj)) ∧
    List.IsPrefix (detectFavicon exEnvDuck "https://example.com").probed
      (faviconSources exObj) :=
  C5_probe_order_first_success exEnvDuck "https://example.com" exObj rfl

/-! ### C4 -/

/-- C4: when every favicon candidate fails its probe for a parseable URL,
`detectFavicon` returns the first service URL (the Google service at
size 64, the head of the candidate list) rather than null, and a
logo-enabled auto-detect generation hands exactly that fallback URL to
the compositor (and displays it as the detected favicon). -/
theorem C4_fallback_used (env : Env) (s : AppState) (obj : URLObj) (q : String)
    (hparse : env.parse s.url = some obj)
    (htrim : jsTrim s.url ≠ "")
    (hfail : ∀ c ∈ faviconSources obj, env.loads c = false)
    (henc : env.qrEncode s.url s.qrSize = some q)
    (hen : s.logoEnabled = true)
    (hfile : (s.logoFile && s.logoPreview != "") = false)
    (hauto : s.autoDetectLogo = true) :
    (detectFavicon env s.url).result = some (fallbackFavicon obj) ∧
    (faviconSources obj).headI = fallbackFavicon obj ∧
    (generateQRCode env s none).qrCodeDataUrl
      = createQRWithLogo env q (fallbackFavicon obj) ∧
    (generateQRCode env s none).detectedFavicon = fallbackFavicon obj := by
  have hfind : (faviconSources obj).find? env.loads = none := by
    rw [List.find?_eq_none]
    intro c hc
    simp [hfail c hc]
  have hvalid : (env.parse (targetUrlOf none s.url)).isSome = true := by
    simp [targetUrlOf, hparse]
  have heq : generateQRCode env s none = generateSuccess env s false s.url q := by
    have := generateQRCode_valid_eq env s none q (by simpa [targetUrlOf] using htrim)
      hvalid (by simpa [targetUrlOf] using henc)
    simpa [targetUrlOf, inputTruthy] using this
  have hres : (detectFavicon env s.url).result = some (fallbackFavicon obj) := by
    rw [detectFavicon_parse_some hparse, hfind]
    rfl
  have hresolved : resolvedLogoUrl env s s.url = fallbackFavicon obj := by
    unfold resolvedLogoUrl
    simp [hfile, hauto, hres]
  refine ⟨hres, rfl, ?_, ?_⟩
  · rw [heq, generateSuccess_qrCodeDataUrl, hresolved]
    simp [hen, fallbackFavicon_ne_empty obj]
  · rw [heq]
    refine generateSuccess_detectedFavicon_auto env s false s.url q
      (fallbackFavicon obj) hen hfile hauto ?_
    rw [detectFavicon_parse_some hparse, hfind]
    rfl

/-- Witness for C4 at the concrete all-fail environment with the logo
feature enabled and auto-detect on. -/
theorem C4_witness :
    (detectFavicon exEnv ({ exState with logoEnabled := true } : AppState).url).result
      = some (fallbackFavicon exObj) ∧
    (faviconSources exObj).headI = fallbackFavicon exObj ∧
    (generateQRCode exEnv { exState with logoEnabled := true } none).qrCodeDataUrl
      = createQRWithLogo exEnv exQR (fallbackFavicon exObj) ∧
    (generateQRCode exEnv { exState with logoEnabled := true } none).detectedFavicon
      = fallbackFavicon exObj :=
  C4_fallback_used exEnv { exState with logoEnabled := true } exObj exQR
    rfl (by decide) (fun c _ => rfl) rfl rfl rfl rfl

/-! ### C6 -/

/-- C6: a generation re-triggered from a history entry (an explicit
non-empty `inputUrl`) regenerates the image — producing the same
displayed data URL a direct submission of that URL would — but leaves
the history list and the persisted record unchanged; a direct submission
(no `inputUrl`) records the target URL into the history. -/
theorem C6_history_click_frame (env : Env) (s : AppState) :
    (∀ u q, u ≠ "" → jsTrim u ≠ "" → (env.parse u).isSome = true →
      env.qrEncode u s.qrSize = some q →
      (generateQRCode env s (some u)).recentUrls = s.recentUrls ∧
      (generateQRCode env s (some u)).storage = s.storage ∧
      (generateQRCode env s (some u)).qrCodeDataUrl =
        (generateQRCode env { s with url := u } none).qrCodeDataUrl) ∧
    (∀ q, jsTrim s.url ≠ "" → (env.parse s.url).isSome = true →
      env.qrEncode s.url s.qrSize = some q →
      (generateQRCode env s none).recentUrls =
        ({ url := s.url, timestamp := env.now } ::
          s.recentUrls.filter (fun e => e.url != s.url)).take 5) := by
  constructor
  · intro u q hu htrim hvalid henc
    have htgt : targetUrlOf (some u) s.url = u := by simp [targetUrlOf, hu]
    have hbu : (u != "") = true := by simpa using hu
    have heq : generateQRCode env s (some u) = generateSuccess env s true u q := by
      have := generateQRCode_valid_eq env s (some u) q (by simpa [htgt] using htrim)
        (by simpa [htgt] using hvalid) (by simpa [htgt] using henc)
      simpa [htgt, inputTruthy, hbu] using this
    have heq' : generateQRCode env { s with url := u } none
        = generateSuccess env { s with url := u } false u q := by
      have := generateQRCode_valid_eq env { s with url := u } none q
        (by simpa [targetUrlOf] using htrim) (by simpa [targetUrlOf] using hvalid)
        (by simpa [targetUrlOf] using henc)
      simpa [targetUrlOf, inputTruthy] using this
    refine ⟨by rw [heq]; exact generateSuccess_recentUrls_true env s u q,
      by rw [heq]; exact generateSuccess_storage_true env s u q, ?_⟩
    rw [heq, heq', generateSuccess_qrCodeDataUrl, generateSuccess_qrCodeDataUrl]
    simp [resolvedLogoUrl]
  · intro q htrim hvalid henc
    have heq : generateQRCode env s none = generateSuccess env s false s.url q := by
      have := generateQRCode_valid_eq env s none q (by simpa [targetUrlOf] using htrim)
        (by simpa [targetUrlOf] using hvalid) (by simpa [targetUrlOf] using henc)
      simpa [targetUrlOf, inputTruthy] using this
    rw [heq]
    exact generateSuccess_recentUrls_false env s s.url q

/-- Witness for C6: regenerating `https://example.com` from a history
click leaves the empty history empty while a direct submission adds it. -/
theorem C6_witness :
    ((generateQRCode exEnv exState (some "https://example.com")).recentUrls
        = exState.recentUrls ∧
      (generateQRCode exEnv exState (some "https://example.com")).storage
        = exState.storage ∧
      (generateQRCode exEnv exState (some "https://example.com")).qrCodeDataUrl =
        (generateQRCode exEnv { exState with url := "https://example.com" } none).qrCodeDataUrl) ∧
    (generateQRCode exEnv exState none).recentUrls =
      ({ url := exState.url, timestamp := exEnv.now } ::
        exState.recentUrls.filter (fun e => e.url != exState.url)).take 5 :=
  ⟨(C6_history_click_frame exEnv exState).1 "https://example.com" exQR
      (by decide) (by decide) rfl rfl,
   (C6_history_click_frame exEnv exState).2 exQR (by decide) rfl rfl⟩

/-! ### History invariant lemmas -/

theorem listInv_mono {l : List RecentUrl} {t : Nat} (h : listInv l t) :
    listInv l (t + 1) :=
  ⟨h.1, h.2.1, h.2.2.1, fun e he => Nat.lt_succ_of_lt (h.2.2.2 e he)⟩

theorem listInv_add {l : List RecentUrl} {t : Nat} (u : String) (h : listInv l t) :
    listInv (({ url := u, timestamp := t } ::
      l.filter (fun e => e.url != u)).take 5) (t + 1) := by
  obtain ⟨hlen, hdist, hnew, hbelow⟩ := h
  have hsub : List.Sublist (l.filter (fun e => e.url != u)) l := List.filter_sublist l
  have hmemf : ∀ e ∈ l.filter (fun e => e.url != u), e ∈ l ∧ e.url ≠ u := by
    intro e he
    rw [List.mem_filter] at he
    exact ⟨he.1, by simpa using he.2⟩
  refine ⟨List.length_take_le 5 _, ?_, ?_, ?_⟩
  · refine List.Pairwise.sublist (List.take_sublist _ _) ?_
    rw [List.pairwise_cons]
    refine ⟨fun e he => ?_, List.Pairwise.sublist hsub hdist⟩
    exact fun hcontra => (hmemf e he).2 hcontra.symm
  · refine List.Pairwise.sublist (List.take_sublist _ _) ?_
    rw [List.pairwise_cons]
    refine ⟨fun e he => ?_, List.Pairwise.sublist hsub hnew⟩
    exact Nat.le_of_lt (hbelow e (hmemf e he).1)
  · intro e he
    rcases List.mem_cons.mp (List.mem_of_mem_take he) with h | h
    · subst h; exact Nat.lt_succ_self t
    · exact Nat.lt_succ_of_lt (hbelow e (hmemf e h).1)

theorem histInv_apply {s : AppState} {t : Nat} (op : HistOp) (h : histInv s t) :
    histInv (applyHistOp t s op) (t + 1) := by
  obtain ⟨hl, hs⟩ := h
  cases op with
  | add u =>
    refine ⟨listInv_add u hl, ?_⟩
    intro l hl2
    simp only [applyHistOp, addToRecentUrls, Option.some.injEq] at hl2
    rw [← hl2]
    exact listInv_add u hl
  | clear =>
    refine ⟨?_, ?_⟩
    · exact ⟨by simp [applyHistOp, clearRecentUrls],
        by simp [applyHistOp, clearRecentUrls, urlsDistinct],
        by simp [applyHistOp, clearRecentUrls, newestFirst],
        by simp [applyHistOp, clearRecentUrls, stampsBelow]⟩
    · intro l hl2
      simp [applyHistOp, clearRecentUrls] at hl2
  | load =>
    cases hst : s.storage with
    | none =>
      have : applyHistOp t s HistOp.load = s := by
        simp [applyHistOp, loadRecentUrls, hst]
      rw [this]
      exact ⟨listInv_mono hl, fun l hl2 => (by rw [hst] at hl2; cases hl2)⟩
    | some l0 =>
      have : applyHistOp t s HistOp.load = { s with recentUrls := l0 } := by
        simp [applyHistOp, loadRecentUrls, hst]
      rw [this]
      refine ⟨listInv_mono (hs l0 hst), ?_⟩
      intro l hl2
      simp only at hl2
      rw [hst] at hl2
      cases hl2
      exact listInv_mono (hs l0 hst)

theorem histInv_run {s : AppState} {t : Nat} (ops : List HistOp) (h : histInv s t) :
    histInv (runHistOps s t ops) (t + ops.length) := by
  induction ops generalizing s t with
  | nil => simpa using h
  | cons op ops ih =>
    have h2 := ih (histInv_apply op h)
    have harith : t + 1 + ops.length = t + (op :: ops).length := by
      simp [List.length_cons]
      omega
    rw [← harith]
    exact h2

/-! ### C3 -/

/-- C3: starting from any state satisfying the history invariant, any
sequence of history operations (add, clear, load) keeps the recent-URLs
list at length at most 5, with pairwise distinct URLs, ordered newest
first; and adding 6 pairwise-distinct URLs to an empty history retains
exactly the 5 most recently added, newest first. -/
theorem C3_history_invariant :
    (∀ (s : AppState) (t : Nat) (ops : List HistOp), histInv s t →
      (runHistOps s t ops).recentUrls.length ≤ 5 ∧
      urlsDistinct (runHistOps s t ops).recentUrls ∧
      newestFirst (runHistOps s t ops).recentUrls) ∧
    (∀ (s : AppState) (t : Nat) (u1 u2 u3 u4 u5 u6 : String),
      u1 ≠ u2 → u1 ≠ u3 → u1 ≠ u4 → u1 ≠ u5 → u1 ≠ u6 →
      u2 ≠ u3 → u2 ≠ u4 → u2 ≠ u5 → u2 ≠ u6 →
      u3 ≠ u4 → u3 ≠ u5 → u3 ≠ u6 →
      u4 ≠ u5 → u4 ≠ u6 →
      u5 ≠ u6 →
      (runHistOps { s with recentUrls := [], storage := none } t
          [HistOp.add u1, HistOp.add u2, HistOp.add u3,
           HistOp.add u4, HistOp.add u5, HistOp.add u6]).recentUrls.map
        (fun e => e.url) = [u6, u5, u4, u3, u2]) := by
  constructor
  · intro s t ops h
    have h2 := histInv_run ops h
    exact ⟨h2.1.1, h2.1.2.1, h2.1.2.2.1⟩
  · intro s t u1 u2 u3 u4 u5 u6 h12 h13 h14 h15 h16 h23 h24 h25 h26 h34 h35 h36 h45 h46 h56
    have b12 : (u1 != u2) = true := by simp [h12]
    have b13 : (u1 != u3) = true := by simp [h13]
    have b14 : (u1 != u4) = true := by simp [h14]
    have b15 : (u1 != u5) = true := by simp [h15]
    have b16 : (u1 != u6) = true := by simp [h16]
    have b23 : (u2 != u3) = true := by simp [h23]
    have b24 : (u2 != u4) = true := by simp [h24]
    have b25 : (u2 != u5) = true := by simp [h25]
    have b26 : (u2 != u6) = true := by simp [h26]
    have b34 : (u3 != u4) = true := by simp [h34]
    have b35 : (u3 != u5) = true := by simp [h35]
    have b36 : (u3 != u6) = true := by simp [h36]
    have b45 : (u4 != u5) = true := by simp [h45]
    have b46 : (u4 != u6) = true := by simp [h46]
    have b56 : (u5 != u6) = true := by simp [h56]
    simp [runHistOps, applyHistOp, addToRecentUrls, List.filter_cons,
      b12, b13, b14, b15, b16, b23, b24, b25, b26, b34, b35, b36, b45, b46, b56]

/-- Witness for C3: a concrete operation sequence from the empty state
keeps the invariant, and six concrete distinct URLs leave the five most
recent. -/
theorem C3_witness :
    ((runHistOps exState 0
        [HistOp.add "https://a.com", HistOp.load, HistOp.add "https://b.com",
         HistOp.clear, HistOp.add "https://c.com", HistOp.add "https://a.com",
         HistOp.load]).recentUrls.length ≤ 5 ∧
      urlsDistinct (runHistOps exState 0
        [HistOp.add "https://a.com", HistOp.load, HistOp.add "https://b.com",
         HistOp.clear, HistOp.add "https://c.com", HistOp.add "https://a.com",
         HistOp.load]).recentUrls ∧
      newestFirst (runHistOps exState 0
        [HistOp.add "https://a.com", HistOp.load, HistOp.add "https://b.com",
         HistOp.clear, HistOp.add "https://c.com", HistOp.add "https://a.com",
         HistOp.load]).recentUrls) ∧
    (runHistOps { exState with recentUrls := [], storage := none } 0
        [HistOp.add "u1", HistOp.add "u2", HistOp.add "u3",
         HistOp.add "u4", HistOp.add "u5", HistOp.add "u6"]).recentUrls.map
      (fun e => e.url) = ["u6", "u5", "u4", "u3", "u2"] :=
  ⟨C3_history_invariant.1 exState 0
      [HistOp.add "https://a.com", HistOp.load, HistOp.add "https://b.com",
       HistOp.clear, HistOp.add "https://c.com", HistOp.add "https://a.com",
       HistOp.load]
      ⟨⟨by simp [exState], by simp [exState, urlsDistinct],
        by simp [exState, newestFirst], by simp [exState, stampsBelow]⟩,
       fun l hl => by simp [exState] at hl⟩,
   C3_history_invariant.2 exState 0 "u1" "u2" "u3" "u4" "u5" "u6"
     (by decide) (by decide) (by decide) (by decide) (by decide)
     (by decide) (by decide) (by decide) (by decide)
     (by decide) (by decide) (by decide)
     (by decide) (by decide)
     (by decide)⟩

end QRGen
